import Mathlib

/-!
Shallow embedding of the multi-provider model registry of this repository
(packages/core/src/config/model-registry.ts) and of the provider content
generator dispatcher (multiProviderContentGenerator-style module).

The TypeScript is translated at its declared types:
* `ModelProvider` is a closed three-value enum, embedded as an inductive.
* `Record<ModelProvider, ProviderConfig>` is a total mapping on the enum,
  embedded as a structure with one field per provider.  `Object.values`
  enumerates the entries in the fixed declaration order GEMINI, OPENAI,
  ANTHROPIC.
* optional fields (`apiKey?`, `baseUrl?`, ...) become `Option`.
* `Partial<ModelRegistryData>` becomes a structure of `Option` fields
  (`RegistrySnapshot` below); the object-spread overlay of the constructor
  becomes `Option.getD`.
* methods that mutate `this.data` become functions from registry state to
  (result, new state).
-/

namespace GeminiCli

/-- enum ModelProvider { GEMINI = 'gemini', OPENAI = 'openai', ANTHROPIC = 'anthropic' } -/
inductive ModelProvider where
  | GEMINI
  | OPENAI
  | ANTHROPIC
deriving DecidableEq, Repr

/-- The string value of each enum member (used by template-literal interpolation). -/
def ModelProvider.toStr : ModelProvider → String
  | .GEMINI => "gemini"
  | .OPENAI => "openai"
  | .ANTHROPIC => "anthropic"

/-- interface ModelInfo -/
structure ModelInfo where
  id : String
  name : String
  provider : ModelProvider
  description : Option String := none
  contextWindow : Option Nat := none
  supportsStreaming : Option Bool := none
deriving DecidableEq, Repr

/-- interface ProviderConfig -/
structure ProviderConfig where
  name : String
  provider : ModelProvider
  apiKey : Option String := none
  baseUrl : Option String := none
  models : List ModelInfo
deriving DecidableEq, Repr

/-- Record<ModelProvider, ProviderConfig>: a total mapping on the closed enum,
one field per key, in the declaration order of the default catalog. -/
structure ProvidersRecord where
  gemini : ProviderConfig
  openai : ProviderConfig
  anthropic : ProviderConfig
deriving DecidableEq, Repr

/-- Indexing `providers[provider]`.  On a `Record` keyed by the closed enum the
lookup is total, so the `| undefined` arm of the optional-chaining reads in the
source can never be taken. -/
def ProvidersRecord.get (ps : ProvidersRecord) : ModelProvider → ProviderConfig
  | .GEMINI => ps.gemini
  | .OPENAI => ps.openai
  | .ANTHROPIC => ps.anthropic

/-- Writing `providers[provider] = config` (the in-place mutation of
`setProviderApiKey` updates the stored config at that key). -/
def ProvidersRecord.put (ps : ProvidersRecord) : ModelProvider → ProviderConfig → ProvidersRecord
  | .GEMINI, c => { ps with gemini := c }
  | .OPENAI, c => { ps with openai := c }
  | .ANTHROPIC, c => { ps with anthropic := c }

/-- `Object.values(providers)`: the entries in the fixed key order. -/
def ProvidersRecord.values (ps : ProvidersRecord) : List ProviderConfig :=
  [ps.gemini, ps.openai, ps.anthropic]

/-- interface ModelRegistryData -/
structure ModelRegistryData where
  currentProvider : ModelProvider
  currentModel : String
  providers : ProvidersRecord
deriving DecidableEq, Repr

/-- Partial<ModelRegistryData>: every top-level field optional.  (`Partial<>`
is shallow: a `providers` value, when present, is a complete record.) -/
structure RegistrySnapshot where
  currentProvider : Option ModelProvider := none
  currentModel : Option String := none
  providers : Option ProvidersRecord := none
deriving DecidableEq, Repr

/-- The default GEMINI catalog from the constructor. -/
def defaultGeminiConfig : ProviderConfig :=
  { name := "Google Gemini"
    provider := .GEMINI
    models :=
      [ { id := "gemini-2.5-pro"
          name := "Gemini 2.5 Pro"
          provider := .GEMINI
          description := some "Google\x27s most capable AI model"
          contextWindow := some 1000000
          supportsStreaming := some true }
      , { id := "gemini-2.5-flash"
          name := "Gemini 2.5 Flash"
          provider := .GEMINI
          description := some "Faster, more efficient Gemini model"
          contextWindow := some 1000000
          supportsStreaming := some true }
      , { id := "gemini-1.5-pro"
          name := "Gemini 1.5 Pro"
          provider := .GEMINI
          description := some "Previous generation Gemini Pro model"
          contextWindow := some 2000000
          supportsStreaming := some true } ] }

/-- The default OPENAI catalog from the constructor. -/
def defaultOpenAIConfig : ProviderConfig :=
  { name := "OpenAI"
    provider := .OPENAI
    models :=
      [ { id := "gpt-4o"
          name := "GPT-4o"
          provider := .OPENAI
          description := some "OpenAI\x27s most advanced multimodal model"
          contextWindow := some 128000
          supportsStreaming := some true }
      , { id := "gpt-4o-mini"
          name := "GPT-4o mini"
          provider := .OPENAI
          description := some "Faster, cost-effective GPT-4o model"
          contextWindow := some 128000
          supportsStreaming := some true }
      , { id := "gpt-4-turbo"
          name := "GPT-4 Turbo"
          provider := .OPENAI
          description := some "Enhanced GPT-4 with improved performance"
          contextWindow := some 128000
          supportsStreaming := some true } ] }

/-- The default ANTHROPIC catalog from the constructor. -/
def defaultAnthropicConfig : ProviderConfig :=
  { name := "Anthropic Claude"
    provider := .ANTHROPIC
    models :=
      [ { id := "claude-3-5-sonnet-20241022"
          name := "Claude 3.5 Sonnet"
          provider := .ANTHROPIC
          description := some "Anthropic\x27s most intelligent model"
          contextWindow := some 200000
          supportsStreaming := some true }
      , { id := "claude-3-5-haiku-20241022"
          name := "Claude 3.5 Haiku"
          provider := .ANTHROPIC
          description := some "Fast and capable Claude model"
          contextWindow := some 200000
          supportsStreaming := some true }
      , { id := "claude-3-opus-20240229"
          name := "Claude 3 Opus"
          provider := .ANTHROPIC
          description := some "Anthropic\x27s most powerful model"
          contextWindow := some 200000
          supportsStreaming := some true } ] }

/-- The default state literal built by the constructor before the
`...initialData` spread is applied. -/
def defaultRegistryData : ModelRegistryData :=
  { currentProvider := .GEMINI
    currentModel := "gemini-2.5-pro"
    providers :=
      { gemini := defaultGeminiConfig
        openai := defaultOpenAIConfig
        anthropic := defaultAnthropicConfig } }

/-- JavaScript String.prototype.trim: strip leading and trailing whitespace
characters.  (`Char.isWhitespace` covers space, tab, CR, LF — the whitespace
that occurs in practice; JS additionally strips rarer Unicode space
characters.) -/
def jsTrim (s : String) : String :=
  ⟨((s.data.dropWhile Char.isWhitespace).reverse.dropWhile Char.isWhitespace).reverse⟩

/-- The registry class holds one private field `data`. -/
structure ModelRegistry where
  data : ModelRegistryData
deriving DecidableEq, Repr

namespace ModelRegistry

/-- constructor(initialData?): `this.data = { ...defaults, ...initialData }`.
The object spread overlays every top-level field present in `initialData`
onto the defaults; an absent field keeps the default. -/
def new (initialData : RegistrySnapshot := {}) : ModelRegistry :=
  { data :=
      { currentProvider := initialData.currentProvider.getD defaultRegistryData.currentProvider
        currentModel := initialData.currentModel.getD defaultRegistryData.currentModel
        providers := initialData.providers.getD defaultRegistryData.providers } }

/-- getCurrentProvider() -/
def getCurrentProvider (r : ModelRegistry) : ModelProvider :=
  r.data.currentProvider

/-- getCurrentModel() -/
def getCurrentModel (r : ModelRegistry) : String :=
  r.data.currentModel

/-- getCurrentModelInfo(): find the current model in the current provider's list. -/
def getCurrentModelInfo (r : ModelRegistry) : Option ModelInfo :=
  (r.data.providers.get r.data.currentProvider).models.find?
    (fun m => m.id == r.data.currentModel)

/-- getProviders(): Object.values(this.data.providers). -/
def getProviders (r : ModelRegistry) : List ProviderConfig :=
  r.data.providers.values

/-- getProvider(provider): lookup in the closed record (the source's
`| undefined` result is unreachable for an enum-typed argument). -/
def getProvider (r : ModelRegistry) (provider : ModelProvider) : ProviderConfig :=
  r.data.providers.get provider

/-- getModelsForProvider(provider): the `?.models || []` fallback is
unreachable for an enum-typed argument, the lookup always succeeds. -/
def getModelsForProvider (r : ModelRegistry) (provider : ModelProvider) : List ModelInfo :=
  (r.data.providers.get provider).models

/-- getAllModels(): Object.values(...).flatMap(p => p.models). -/
def getAllModels (r : ModelRegistry) : List ModelInfo :=
  r.data.providers.values.flatMap (fun p => p.models)

/-- setCurrentModel(provider, modelId): validate that modelId names a model of
`provider`, and only then assign both currentProvider and currentModel.
Returns the boolean result paired with the post-call state.  The source's
`if (!providerConfig) return false` guard cannot fire for an enum-typed
argument (the record is total), so it drops out of the translation. -/
def setCurrentModel (r : ModelRegistry) (provider : ModelProvider) (modelId : String) :
    Bool × ModelRegistry :=
  let providerConfig := r.data.providers.get provider
  match providerConfig.models.find? (fun m => m.id == modelId) with
  | none => (false, r)
  | some _ =>
      (true,
        { data :=
            { r.data with
              currentProvider := provider
              currentModel := modelId } })

/-- setProviderApiKey(provider, apiKey): store the key verbatim on that
provider's config.  The `if (!providerConfig) return false` guard cannot fire
for an enum-typed argument, so the call always returns true. -/
def setProviderApiKey (r : ModelRegistry) (provider : ModelProvider) (apiKey : String) :
    Bool × ModelRegistry :=
  let providerConfig := r.data.providers.get provider
  (true,
    { data :=
        { r.data with
          providers := r.data.providers.put provider { providerConfig with apiKey := some apiKey } } })

/-- getProviderApiKey(provider) -/
def getProviderApiKey (r : ModelRegistry) (provider : ModelProvider) : Option String :=
  (r.data.providers.get provider).apiKey

/-- hasValidApiKey(provider): `!!apiKey && apiKey.trim().length > 0`.
JavaScript truthiness of a `string | undefined`: false for undefined and for
the empty string. -/
def hasValidApiKey (r : ModelRegistry) (provider : ModelProvider) : Bool :=
  match r.getProviderApiKey provider with
  | none => false
  | some apiKey => !(apiKey == "") && decide ((jsTrim apiKey).length > 0)

/-- toJSON(): JSON.parse(JSON.stringify(this.data)).  On this data shape
(strings, numbers, booleans, arrays, optional fields absent when unset) the
round trip through JSON is the identity on the value, yielding a deep
independent copy; in the pure embedding it is the state itself. -/
def toJSON (r : ModelRegistry) : ModelRegistryData :=
  r.data

/-- static fromJSON(data): new ModelRegistry(data). -/
def fromJSON (data : RegistrySnapshot) : ModelRegistry :=
  ModelRegistry.new data

end ModelRegistry

/-- TypeScript subtyping: a full ModelRegistryData is assignable to
Partial<ModelRegistryData> with every field present. -/
def ModelRegistryData.asSnapshot (d : ModelRegistryData) : RegistrySnapshot :=
  { currentProvider := some d.currentProvider
    currentModel := some d.currentModel
    providers := some d.providers }

/-!
Dispatcher module: `createProviderContentGenerator` and the OpenAI/Anthropic
stub generators.  The request/response types come from the external
@google/genai package and are opaque to this core; they are embedded as
abstract placeholder structures.  A method that either resolves with a value
or rejects with an Error message becomes `Except String`; an async generator
of chunks becomes a list of chunks (finite, forward-only).
-/

/-- External request type (opaque to this core). -/
structure GenerateContentParameters where
  payload : Unit := ()
deriving DecidableEq, Repr

/-- External response type (opaque to this core). -/
structure GenerateContentResponse where
  payload : Unit := ()
deriving DecidableEq, Repr

/-- External request type (opaque to this core). -/
structure CountTokensParameters where
  payload : Unit := ()
deriving DecidableEq, Repr

/-- External response type (opaque to this core). -/
structure CountTokensResponse where
  payload : Unit := ()
deriving DecidableEq, Repr

/-- External request type (opaque to this core). -/
structure EmbedContentParameters where
  payload : Unit := ()
deriving DecidableEq, Repr

/-- External response type (opaque to this core). -/
structure EmbedContentResponse where
  payload : Unit := ()
deriving DecidableEq, Repr

/-- interface MultiProviderConfig -/
structure MultiProviderConfig where
  provider : ModelProvider
  model : String
  apiKey : Option String := none
  baseUrl : Option String := none
  proxy : Option String := none
deriving DecidableEq, Repr

/-- The ContentGenerator capability interface: one record of the four
capability methods plus the stored constructor argument.  A provider-specific
class instance is a value of this type. -/
structure ProviderContentGenerator where
  config : MultiProviderConfig
  generateContent : GenerateContentParameters → Except String GenerateContentResponse
  generateContentStream : GenerateContentParameters → Except String (List GenerateContentResponse)
  countTokens : CountTokensParameters → Except String CountTokensResponse
  embedContent : EmbedContentParameters → Except String EmbedContentResponse

/-- The error message every OpenAI stub method throws. -/
def openAIStubMessage : String :=
  "OpenAI provider is not yet implemented. Please use Gemini provider for now."

/-- The error message every Anthropic stub method throws. -/
def anthropicStubMessage : String :=
  "Anthropic provider is not yet implemented. Please use Gemini provider for now."

/-- class OpenAIContentGenerator extends ProviderContentGenerator: constructs
successfully from any config; every capability method throws the
not-yet-implemented error. -/
def OpenAIContentGenerator (config : MultiProviderConfig) : ProviderContentGenerator :=
  { config := config
    generateContent := fun _ => .error openAIStubMessage
    generateContentStream := fun _ => .error openAIStubMessage
    countTokens := fun _ => .error openAIStubMessage
    embedContent := fun _ => .error openAIStubMessage }

/-- class AnthropicContentGenerator extends ProviderContentGenerator:
constructs successfully from any config; every capability method throws the
not-yet-implemented error. -/
def AnthropicContentGenerator (config : MultiProviderConfig) : ProviderContentGenerator :=
  { config := config
    generateContent := fun _ => .error anthropicStubMessage
    generateContentStream := fun _ => .error anthropicStubMessage
    countTokens := fun _ => .error anthropicStubMessage
    embedContent := fun _ => .error anthropicStubMessage }

/-- createProviderContentGenerator(config): switch on config.provider with
cases for OPENAI and ANTHROPIC; every other value (i.e. GEMINI, the only
remaining member of the closed enum) falls to the default arm, which throws
`Unsupported provider: ${config.provider}` synchronously, before any
capability method could be invoked.  The throw is embedded as `Except.error`
returned by the factory itself. -/
def createProviderContentGenerator (config : MultiProviderConfig) :
    Except String ProviderContentGenerator :=
  match config.provider with
  | .OPENAI => .ok (OpenAIContentGenerator config)
  | .ANTHROPIC => .ok (AnthropicContentGenerator config)
  | .GEMINI => .error ("Unsupported provider: " ++ ModelProvider.GEMINI.toStr)

/-!
The operations a caller can perform on a registry between observations:
the two mutators, applied in sequence from the default construction.
-/

/-- One mutating call on the registry. -/
inductive RegistryOp where
  | setModel (provider : ModelProvider) (modelId : String)
  | setKey (provider : ModelProvider) (apiKey : String)
deriving DecidableEq, Repr

/-- Apply one mutating call, keeping the post-call state. -/
def applyOp (r : ModelRegistry) : RegistryOp → ModelRegistry
  | .setModel p modelId => (r.setCurrentModel p modelId).snd
  | .setKey p k => (r.setProviderApiKey p k).snd

/-- Apply a finite sequence of mutating calls, left to right. -/
def applyOps (r : ModelRegistry) (ops : List RegistryOp) : ModelRegistry :=
  ops.foldl applyOp r

/-- The selection-consistency invariant: currentModel is the id of a model in
providers[currentProvider].models. -/
def SelectionValid (r : ModelRegistry) : Prop :=
  ∃ m ∈ (r.data.providers.get r.data.currentProvider).models,
    m.id = r.data.currentModel

instance (r : ModelRegistry) : Decidable (SelectionValid r) := by
  unfold SelectionValid; infer_instance

/-! Helper lemmas. -/

theorem ProvidersRecord.get_put (ps : ProvidersRecord) (p q : ModelProvider)
    (c : ProviderConfig) :
    (ps.put p c).get q = if q = p then c else ps.get q := by
  cases p <;> cases q <;> simp [ProvidersRecord.get, ProvidersRecord.put]

theorem mem_dropWhile_of_mem {p : Char → Bool} {l : List Char} {c : Char}
    (hc : c ∈ l) (hp : ¬ p c = true) : c ∈ l.dropWhile p := by
  have hsplit : c ∈ l.takeWhile p ++ l.dropWhile p := by
    rw [List.takeWhile_append_dropWhile]; exact hc
  rcases List.mem_append.mp hsplit with h | h
  · exact absurd (List.mem_takeWhile_imp h) hp
  · exact h

theorem jsTrim_length_pos {k : String} {c : Char}
    (hc : c ∈ k.data) (hp : ¬ c.isWhitespace = true) : 0 < (jsTrim k).length := by
  have h1 : c ∈ k.data.dropWhile Char.isWhitespace := mem_dropWhile_of_mem hc hp
  have h2 : c ∈ (k.data.dropWhile Char.isWhitespace).reverse := List.mem_reverse.mpr h1
  have h3 : c ∈ ((k.data.dropWhile Char.isWhitespace).reverse.dropWhile Char.isWhitespace) :=
    mem_dropWhile_of_mem h2 hp
  have h4 : c ∈ (jsTrim k).data := by
    show c ∈ ((k.data.dropWhile Char.isWhitespace).reverse.dropWhile Char.isWhitespace).reverse
    exact List.mem_reverse.mpr h3
  have h5 : 0 < (jsTrim k).data.length := List.length_pos.mpr (List.ne_nil_of_mem h4)
  exact h5

theorem jsTrim_length_zero {k : String}
    (hws : ∀ c ∈ k.data, c.isWhitespace = true) : (jsTrim k).length = 0 := by
  have h1 : k.data.dropWhile Char.isWhitespace = [] :=
    List.dropWhile_eq_nil_iff.mpr hws
  have : jsTrim k = ⟨[]⟩ := by
    unfold jsTrim
    rw [h1]
    rfl
  rw [this]
  rfl

theorem selectionValid_applyOp {r : ModelRegistry} (h : SelectionValid r)
    (op : RegistryOp) : SelectionValid (applyOp r op) := by
  cases op with
  | setModel p modelId =>
    show SelectionValid (r.setCurrentModel p modelId).snd
    cases hf : (r.data.providers.get p).models.find? (fun m => m.id == modelId) with
    | none =>
      simp only [ModelRegistry.setCurrentModel, hf]
      exact h
    | some m =>
      simp only [ModelRegistry.setCurrentModel, hf]
      refine ⟨m, List.mem_of_find?_eq_some hf, ?_⟩
      have := List.find?_some hf
      simpa using this
  | setKey p k =>
    show SelectionValid (r.setProviderApiKey p k).snd
    obtain ⟨m, hm, hid⟩ := h
    refine ⟨m, ?_, hid⟩
    show m ∈ ((r.data.providers.put p _).get r.data.currentProvider).models
    rw [ProvidersRecord.get_put]
    by_cases hq : r.data.currentProvider = p
    · rw [if_pos hq]
      show m ∈ (r.data.providers.get p).models
      rw [← hq]; exact hm
    · rw [if_neg hq]; exact hm

theorem selectionValid_applyOps {r : ModelRegistry} (h : SelectionValid r)
    (ops : List RegistryOp) : SelectionValid (applyOps r ops) := by
  induction ops generalizing r with
  | nil => exact h
  | cons op rest ih => exact ih (selectionValid_applyOp h op)

/-! Claim theorems. -/

/-- C1: setCurrentModel is an atomic compare-and-set: it returns true exactly
when modelId names a model in provider's model list (provider being a key of
the closed providers record for every enum value); on success it updates both
currentProvider and currentModel together, and on failure the state is
completely unchanged — never a partial update. -/
theorem setCurrentModel_atomic (r : ModelRegistry) (provider : ModelProvider)
    (modelId : String) :
    ((r.setCurrentModel provider modelId).fst = true ↔
      ∃ m ∈ r.getModelsForProvider provider, m.id = modelId) ∧
    ((r.setCurrentModel provider modelId).fst = true →
      (r.setCurrentModel provider modelId).snd.getCurrentProvider = provider ∧
      (r.setCurrentModel provider modelId).snd.getCurrentModel = modelId) ∧
    ((r.setCurrentModel provider modelId).fst = false →
      (r.setCurrentModel provider modelId).snd = r) := by
  cases hf : (r.data.providers.get provider).models.find? (fun m => m.id == modelId) with
  | none =>
    simp only [ModelRegistry.setCurrentModel, ModelRegistry.getModelsForProvider, hf]
    simp only [List.find?_eq_none] at hf
    refine ⟨?_, ?_, ?_⟩
    · simp only [Bool.false_eq_true, false_iff, not_exists]
      intro m hm
      exact absurd (by simpa using hm.2) (hf m hm.1)
    · intro h; simp at h
    · intro _; trivial
  | some m =>
    simp only [ModelRegistry.setCurrentModel, ModelRegistry.getModelsForProvider, hf]
    refine ⟨?_, ?_, ?_⟩
    · simp only [true_iff]
      exact ⟨m, List.mem_of_find?_eq_some hf, by simpa using List.find?_some hf⟩
    · intro _
      exact ⟨rfl, rfl⟩
    · intro h; cases h

/-- C1 witness: a successful concrete call. -/
theorem setCurrentModel_atomic_witness :
    ((ModelRegistry.new {}).setCurrentModel .OPENAI "gpt-4o").snd.getCurrentProvider =
        ModelProvider.OPENAI ∧
    ((ModelRegistry.new {}).setCurrentModel .OPENAI "gpt-4o").snd.getCurrentModel = "gpt-4o" :=
  (setCurrentModel_atomic (ModelRegistry.new {}) .OPENAI "gpt-4o").2.1 (by decide)

/-- C2: from the default-constructed registry, every finite sequence of
setCurrentModel / setProviderApiKey calls leaves a state whose currentModel is
the id of a model in providers[currentProvider].models. -/
theorem registry_selection_invariant (ops : List RegistryOp) :
    SelectionValid (applyOps (ModelRegistry.new {}) ops) :=
  selectionValid_applyOps (by decide) ops

/-- C3: whatever (partial) snapshot the constructor or fromJSON is given,
getProviders() enumerates exactly the three providers of the closed record, in
the fixed order GEMINI, OPENAI, ANTHROPIC. -/
theorem getProviders_closed (initialData : RegistrySnapshot) :
    (ModelRegistry.new initialData).getProviders =
      [(ModelRegistry.new initialData).getProvider .GEMINI,
       (ModelRegistry.new initialData).getProvider .OPENAI,
       (ModelRegistry.new initialData).getProvider .ANTHROPIC] ∧
    (ModelRegistry.fromJSON initialData).getProviders =
      [(ModelRegistry.fromJSON initialData).getProvider .GEMINI,
       (ModelRegistry.fromJSON initialData).getProvider .OPENAI,
       (ModelRegistry.fromJSON initialData).getProvider .ANTHROPIC] ∧
    (ModelRegistry.new initialData).getProviders.length = 3 :=
  ⟨rfl, rfl, rfl⟩

/-- C4: serializing a registry with toJSON and reconstructing with fromJSON
yields an observationally equal registry: same current selection, same api key
per provider, same model list per provider. -/
theorem fromJSON_toJSON_roundTrip (r : ModelRegistry) :
    (ModelRegistry.fromJSON r.toJSON.asSnapshot).getCurrentProvider = r.getCurrentProvider ∧
    (ModelRegistry.fromJSON r.toJSON.asSnapshot).getCurrentModel = r.getCurrentModel ∧
    (∀ p, (ModelRegistry.fromJSON r.toJSON.asSnapshot).getProviderApiKey p =
      r.getProviderApiKey p) ∧
    (∀ p, (ModelRegistry.fromJSON r.toJSON.asSnapshot).getModelsForProvider p =
      r.getModelsForProvider p) :=
  ⟨rfl, rfl, fun _ => rfl, fun _ => rfl⟩

/-- C5: constructing from a snapshot that names only currentProvider and
currentModel keeps all three default provider catalogs and overrides only the
current selection. -/
theorem fromSnapshot_overlay (p : ModelProvider) (modelId : String) :
    (ModelRegistry.fromJSON
        { currentProvider := some p, currentModel := some modelId }).getProviders =
      [defaultGeminiConfig, defaultOpenAIConfig, defaultAnthropicConfig] ∧
    (ModelRegistry.fromJSON
        { currentProvider := some p, currentModel := some modelId }).getCurrentProvider = p ∧
    (ModelRegistry.fromJSON
        { currentProvider := some p, currentModel := some modelId }).getCurrentModel = modelId :=
  ⟨rfl, rfl, rfl⟩

/-- C6: hasValidApiKey(provider) is true exactly when a key is stored whose
whitespace-trimmed form is nonempty; in particular it is false when no key was
ever stored and when the stored key is empty or all-whitespace, and true when
the stored key has any non-whitespace character. -/
theorem hasValidApiKey_blank_policy (r : ModelRegistry) (provider : ModelProvider) :
    (r.hasValidApiKey provider = true ↔
      ∃ k, r.getProviderApiKey provider = some k ∧ 0 < (jsTrim k).length) ∧
    (r.getProviderApiKey provider = none → r.hasValidApiKey provider = false) ∧
    (∀ k, r.getProviderApiKey provider = some k →
      (∀ c ∈ k.data, c.isWhitespace = true) → r.hasValidApiKey provider = false) ∧
    (∀ k, r.getProviderApiKey provider = some k →
      (∃ c ∈ k.data, ¬ c.isWhitespace = true) → r.hasValidApiKey provider = true) := by
  cases hk : r.getProviderApiKey provider with
  | none =>
    refine ⟨?_, fun _ => ?_, fun k hsk => ?_, fun k hsk => ?_⟩
    · simp [ModelRegistry.hasValidApiKey, hk]
    · simp [ModelRegistry.hasValidApiKey, hk]
    · cases hsk
    · cases hsk
  | some k0 =>
    refine ⟨?_, fun hnone => ?_, fun k hsk hws => ?_, fun k hsk hnws => ?_⟩
    · simp only [ModelRegistry.hasValidApiKey, hk, Bool.and_eq_true, bne_iff_ne,
        Bool.not_eq_true', beq_eq_false_iff_ne, ne_eq, decide_eq_true_eq,
        Option.some.injEq]
      constructor
      · rintro ⟨-, hlen⟩
        exact ⟨k0, rfl, hlen⟩
      · rintro ⟨k, hkk, hlen⟩
        subst hkk
        refine ⟨?_, hlen⟩
        rintro rfl
        exact absurd hlen (by decide)
    · cases hnone
    · injection hsk with he
      subst he
      have hlen : (jsTrim k0).length = 0 := jsTrim_length_zero hws
      simp [ModelRegistry.hasValidApiKey, hk, hlen]
    · injection hsk with he
      subst he
      obtain ⟨c, hc, hcw⟩ := hnws
      have hlen : 0 < (jsTrim k0).length := jsTrim_length_pos hc hcw
      have hne : (k0 == "") = false := by
        cases hke : k0 == "" with
        | false => rfl
        | true =>
          have hkeq : k0 = "" := by simpa using hke
          subst hkeq
          exact absurd hlen (by decide)
      simp [ModelRegistry.hasValidApiKey, hk, hne, hlen]

/-- C6 witness: a stored all-whitespace key is invalid, a stored key with
content is valid, and an unset key is invalid, at concrete inputs. -/
theorem hasValidApiKey_blank_policy_witness :
    ((ModelRegistry.new {}).setProviderApiKey .OPENAI "   ").snd.hasValidApiKey .OPENAI
        = false ∧
    ((ModelRegistry.new {}).setProviderApiKey .ANTHROPIC "sk-x").snd.hasValidApiKey .ANTHROPIC
        = true ∧
    (ModelRegistry.new {}).hasValidApiKey .OPENAI = false :=
  ⟨(hasValidApiKey_blank_policy
        ((ModelRegistry.new {}).setProviderApiKey .OPENAI "   ").snd .OPENAI).2.2.1
      "   " (by decide) (by decide),
   (hasValidApiKey_blank_policy
        ((ModelRegistry.new {}).setProviderApiKey .ANTHROPIC "sk-x").snd .ANTHROPIC).2.2.2
      "sk-x" (by decide) ⟨'s', by decide, by decide⟩,
   (hasValidApiKey_blank_policy (ModelRegistry.new {}) .OPENAI).2.1 (by decide)⟩

/-- C7: the factory returns the OpenAI-backed generator for OPENAI and the
Anthropic-backed generator for ANTHROPIC; for every other value of the closed
enum it fails synchronously at construction with an unsupported-provider
error, before any capability method exists to be invoked. -/
theorem createProviderContentGenerator_dispatch (config : MultiProviderConfig) :
    (config.provider = .OPENAI →
      createProviderContentGenerator config = .ok (OpenAIContentGenerator config)) ∧
    (config.provider = .ANTHROPIC →
      createProviderContentGenerator config = .ok (AnthropicContentGenerator config)) ∧
    (config.provider ≠ .OPENAI → config.provider ≠ .ANTHROPIC →
      createProviderContentGenerator config =
        .error ("Unsupported provider: " ++ config.provider.toStr)) := by
  obtain ⟨p, m, a, b, pr⟩ := config
  cases p <;> simp [createProviderContentGenerator, ModelProvider.toStr]

/-- C7 witness: the concrete GEMINI config hits the default arm of the switch
and the factory itself reports the unsupported provider. -/
theorem createProviderContentGenerator_dispatch_witness :
    createProviderContentGenerator { provider := .GEMINI, model := "gemini-2.5-pro" } =
      .error ("Unsupported provider: " ++ ModelProvider.GEMINI.toStr) :=
  (createProviderContentGenerator_dispatch
      { provider := .GEMINI, model := "gemini-2.5-pro" }).2.2 (by decide) (by decide)

/-- C8: both stub generators construct from any config (keeping it), and each
of their four capability methods fails on every request with the
not-implemented message, which names the provider and recommends the Gemini
provider. -/
theorem stub_generators_uniform_failure (config : MultiProviderConfig) :
    (OpenAIContentGenerator config).config = config ∧
    (AnthropicContentGenerator config).config = config ∧
    (∀ req, (OpenAIContentGenerator config).generateContent req =
      .error openAIStubMessage) ∧
    (∀ req, (OpenAIContentGenerator config).generateContentStream req =
      .error openAIStubMessage) ∧
    (∀ req, (OpenAIContentGenerator config).countTokens req =
      .error openAIStubMessage) ∧
    (∀ req, (OpenAIContentGenerator config).embedContent req =
      .error openAIStubMessage) ∧
    (∀ req, (AnthropicContentGenerator config).generateContent req =
      .error anthropicStubMessage) ∧
    (∀ req, (AnthropicContentGenerator config).generateContentStream req =
      .error anthropicStubMessage) ∧
    (∀ req, (AnthropicContentGenerator config).countTokens req =
      .error anthropicStubMessage) ∧
    (∀ req, (AnthropicContentGenerator config).embedContent req =
      .error anthropicStubMessage) ∧
    "OpenAI".data <:+: openAIStubMessage.data ∧
    "Gemini".data <:+: openAIStubMessage.data ∧
    "Anthropic".data <:+: anthropicStubMessage.data ∧
    "Gemini".data <:+: anthropicStubMessage.data := by
  refine ⟨rfl, rfl, fun _ => rfl, fun _ => rfl, fun _ => rfl, fun _ => rfl,
    fun _ => rfl, fun _ => rfl, fun _ => rfl, fun _ => rfl, ?_, ?_, ?_, ?_⟩ <;> decide

/-- C9: setProviderApiKey stores the key verbatim under its provider (every
enum value being a key of the closed providers record, the call always
succeeds), and changes nothing else: other providers' keys, the current
selection and every model list are untouched. -/
theorem setProviderApiKey_verbatim (r : ModelRegistry) (provider : ModelProvider)
    (apiKey : String) :
    (r.setProviderApiKey provider apiKey).fst = true ∧
    (r.setProviderApiKey provider apiKey).snd.getProviderApiKey provider = some apiKey ∧
    (∀ q, q ≠ provider →
      (r.setProviderApiKey provider apiKey).snd.getProviderApiKey q =
        r.getProviderApiKey q) ∧
    (r.setProviderApiKey provider apiKey).snd.getCurrentProvider = r.getCurrentProvider ∧
    (r.setProviderApiKey provider apiKey).snd.getCurrentModel = r.getCurrentModel ∧
    (∀ q, (r.setProviderApiKey provider apiKey).snd.getModelsForProvider q =
      r.getModelsForProvider q) := by
  refine ⟨rfl, ?_, ?_, rfl, rfl, ?_⟩
  · show ((r.data.providers.put provider _).get provider).apiKey = some apiKey
    rw [ProvidersRecord.get_put, if_pos rfl]
  · intro q hq
    show ((r.data.providers.put provider _).get q).apiKey = _
    rw [ProvidersRecord.get_put, if_neg hq]
    rfl
  · intro q
    show ((r.data.providers.put provider _).get q).models = _
    rw [ProvidersRecord.get_put]
    by_cases hq : q = provider
    · rw [if_pos hq, hq]
      rfl
    · rw [if_neg hq]
      rfl

/-- C9 witness: storing a key with surrounding whitespace keeps it verbatim
and leaves another provider's key untouched, at a concrete input. -/
theorem setProviderApiKey_verbatim_witness :
    ((ModelRegistry.new {}).setProviderApiKey .OPENAI "  sk-test  ").snd.getProviderApiKey
        .OPENAI = some "  sk-test  " ∧
    ((ModelRegistry.new {}).setProviderApiKey .OPENAI "  sk-test  ").snd.getProviderApiKey
        .GEMINI = (ModelRegistry.new {}).getProviderApiKey .GEMINI :=
  ⟨(setProviderApiKey_verbatim (ModelRegistry.new {}) .OPENAI "  sk-test  ").2.1,
   (setProviderApiKey_verbatim (ModelRegistry.new {}) .OPENAI "  sk-test  ").2.2.1
      .GEMINI (by decide)⟩

/-- C10: setCurrentModel touches at most the current selection: the providers
record (every name, apiKey, baseUrl and models list) is identical before and
after, whether the call succeeds or fails. -/
theorem setCurrentModel_frame (r : ModelRegistry) (provider : ModelProvider)
    (modelId : String) :
    (r.setCurrentModel provider modelId).snd.data.providers = r.data.providers := by
  cases hf : (r.data.providers.get provider).models.find? (fun m => m.id == modelId) with
  | none => simp only [ModelRegistry.setCurrentModel, hf]
  | some m => simp only [ModelRegistry.setCurrentModel, hf]

end GeminiCli
